import Mathlib

/-!
# Verification of zEpid causal estimators: `TimeFixedGFormula` and `GEstimationSNM`

Shallow embedding of `zepid/causal/gformula/TimeFixed.py` and
`zepid/causal/snm/g_estimation.py`.

Modelling conventions:
* A pandas cell is `Option ℚ`: `none` models a missing value (`NaN`), `some q` a
  numeric value.  A `DataFrame` is a list of rows, each row an ordered
  association list from column name to cell (lookups read the first matching
  name, matching pandas' unique column labels).
* Python exceptions are values of `PyErr`; fallible operations return `Except PyErr`.
* The external collaborators (statsmodels GLM/GEE fitting via `propensity_score`,
  the patsy design-matrix builder, Python's `eval` over a boolean expression
  string) are opaque to the two estimator classes and are passed in as function
  parameters.
* Aliasing behaviour of pandas frames (which `.copy()` calls protect the caller's
  table) is modelled separately with an explicit heap of frames.
-/

set_option autoImplicit false

namespace ZEpid

/-- Python exceptions raised by the code under verification, by kind and message.
The spec's `ConfigurationError` corresponds to `ValueError` in the source, and
its `SingularMatrixError` to numpy's `LinAlgError`. -/
inductive PyErr where
  | valueError (msg : String)
  | typeError (msg : String)
  | linAlgError (msg : String)
  deriving Repr, DecidableEq

/-- `PyErr` kind test: is this exception a `ValueError`?  (zEpid signals all of
its configuration errors as `ValueError`.) -/
def PyErr.isValueError : PyErr → Bool
  | .valueError _ => true
  | _ => false

/-- `PyErr` kind test: is this exception a `TypeError`? -/
def PyErr.isTypeError : PyErr → Bool
  | .typeError _ => true
  | _ => false

deriving instance DecidableEq for Except

/-- A pandas cell: `none` is a missing value (`NaN`). -/
abbrev Cell := Option ℚ

/-- A row of a pandas `DataFrame`: an ordered association list from column name
to cell. -/
abbrev Row := List (String × Cell)

/-- Read the cell of column `c` in a row (first matching label). -/
def rowGet : Row → String → Cell
  | [], _ => none
  | p :: t, c => if p.1 = c then p.2 else rowGet t c

/-- Write the cell of column `c` in a row: an existing label is overwritten in
place, a new label is appended on the right (pandas column assignment). -/
def rowSet : Row → String → Cell → Row
  | [], c, v => [(c, v)]
  | p :: t, c, v => if p.1 = c then (c, v) :: t else p :: rowSet t c v

/-- Does the row contain a missing value? -/
def rowHasNa (r : Row) : Bool := r.any (fun p => p.2.isNone)

/-- A pandas `DataFrame`: a list of rows. -/
structure DataFrame where
  rows : List Row
  deriving Repr, DecidableEq

namespace DataFrame

/-- Number of rows. -/
def nrows (df : DataFrame) : ℕ := df.rows.length

/-- Column extraction `df[c]`. -/
def getCol (df : DataFrame) (c : String) : List Cell :=
  df.rows.map (fun r => rowGet r c)

/-- The cell of column `c` in row `k`. -/
def cellAt (df : DataFrame) (c : String) (k : ℕ) : Cell :=
  rowGet (df.rows.getD k []) c

/-- Row-by-row column assignment (rows beyond the value list get `NaN`). -/
def setColAux : List Row → String → List Cell → List Row
  | [], _, _ => []
  | r :: rs, c, [] => rowSet r c none :: setColAux rs c []
  | r :: rs, c, v :: vs => rowSet r c v :: setColAux rs c vs

/-- Column assignment `df[c] = vs` with a per-row list of values. -/
def setCol (df : DataFrame) (c : String) (vs : List Cell) : DataFrame :=
  ⟨setColAux df.rows c vs⟩

/-- Broadcast column assignment `df[c] = v` (a scalar). -/
def setColConst (df : DataFrame) (c : String) (v : Cell) : DataFrame :=
  ⟨df.rows.map (fun r => rowSet r c v)⟩

/-- `df.dropna()`: keep only the rows with no missing value. -/
def dropna (df : DataFrame) : DataFrame :=
  ⟨df.rows.filter (fun r => !rowHasNa r)⟩

/-- `df.dropna().reset_index()`: drop the incomplete rows and record each kept
row's original position in a new leading `index` column (pandas `reset_index`
without `drop=True` inserts the old index as a column). -/
def dropnaResetIndex (df : DataFrame) : DataFrame :=
  ⟨(df.rows.enum.filter (fun p => !rowHasNa p.2)).map
     (fun p => ("index", some (p.1 : ℚ)) :: p.2)⟩

/-- `df.drop(columns=[c])`. -/
def dropCol (df : DataFrame) (c : String) : DataFrame :=
  ⟨df.rows.map (fun r => r.filter (fun p => p.1 ≠ c))⟩

/-- `df.rename(columns={old: nw})`. -/
def renameCol (df : DataFrame) (old nw : String) : DataFrame :=
  ⟨df.rows.map (fun r => r.map (fun p => if p.1 = old then (nw, p.2) else p))⟩

end DataFrame

@[simp] theorem rowGet_rowSet_self (r : Row) (c : String) (v : Cell) :
    rowGet (rowSet r c v) c = v := by
  induction r with
  | nil => simp [rowGet, rowSet]
  | cons p t ih =>
    by_cases h : p.1 = c
    · simp [rowGet, rowSet, h]
    · simp [rowGet, rowSet, h, ih]

@[simp] theorem rowGet_rowSet_other (r : Row) (c c' : String) (v : Cell)
    (h : c' ≠ c) : rowGet (rowSet r c v) c' = rowGet r c' := by
  have h' : c ≠ c' := Ne.symm h
  induction r with
  | nil => simp [rowGet, rowSet, h']
  | cons p t ih =>
    by_cases hp : p.1 = c
    · have e : rowSet (p :: t) c v = (c, v) :: t := by simp [rowSet, hp]
      rw [e]
      simp [rowGet, h', hp]
    · have e : rowSet (p :: t) c v = p :: rowSet t c v := by simp [rowSet, hp]
      rw [e]
      simp [rowGet, ih]

namespace DataFrame

@[simp] theorem nrows_setColConst (df : DataFrame) (c : String) (v : Cell) :
    (df.setColConst c v).nrows = df.nrows := by
  simp [setColConst, nrows]

theorem length_setColAux (rs : List Row) (c : String) (vs : List Cell) :
    (setColAux rs c vs).length = rs.length := by
  induction rs generalizing vs with
  | nil => simp [setColAux]
  | cons r t ih =>
    cases vs with
    | nil => simp [setColAux, ih]
    | cons v vt => simp [setColAux, ih]

@[simp] theorem nrows_setCol (df : DataFrame) (c : String) (vs : List Cell) :
    (df.setCol c vs).nrows = df.nrows :=
  length_setColAux df.rows c vs

@[simp] theorem getCol_setColConst_self (df : DataFrame) (c : String) (v : Cell) :
    (df.setColConst c v).getCol c = List.replicate df.nrows v := by
  simp only [setColConst, getCol, nrows, List.map_map]
  induction df.rows with
  | nil => simp
  | cons r t ih => simp [List.replicate_succ, ih]

@[simp] theorem getCol_setColConst_other (df : DataFrame) (c c' : String)
    (v : Cell) (h : c' ≠ c) : (df.setColConst c v).getCol c' = df.getCol c' := by
  simp only [setColConst, getCol, List.map_map]
  exact List.map_congr_left (fun r _ => rowGet_rowSet_other r c c' v h)

theorem map_rowGet_setColAux (rs : List Row) (c : String) (vs : List Cell)
    (hlen : vs.length = rs.length) :
    (setColAux rs c vs).map (fun r => rowGet r c) = vs := by
  induction rs generalizing vs with
  | nil =>
    cases vs with
    | nil => simp [setColAux]
    | cons v vt => simp at hlen
  | cons r t ih =>
    cases vs with
    | nil => simp at hlen
    | cons v vt =>
      simp only [List.length_cons] at hlen
      simp [setColAux, ih vt (by omega)]

theorem map_rowGet_setColAux_other (rs : List Row) (c c' : String)
    (vs : List Cell) (h : c' ≠ c) :
    (setColAux rs c vs).map (fun r => rowGet r c')
      = rs.map (fun r => rowGet r c') := by
  induction rs generalizing vs with
  | nil => simp [setColAux]
  | cons r t ih =>
    cases vs with
    | nil => simp [setColAux, rowGet_rowSet_other _ _ _ _ h, ih]
    | cons v vt => simp [setColAux, rowGet_rowSet_other _ _ _ _ h, ih]

theorem getCol_setCol_self (df : DataFrame) (c : String) (vs : List Cell)
    (hlen : vs.length = df.nrows) : (df.setCol c vs).getCol c = vs :=
  map_rowGet_setColAux df.rows c vs hlen

theorem getCol_setCol_other (df : DataFrame) (c c' : String) (vs : List Cell)
    (h : c' ≠ c) : (df.setCol c vs).getCol c' = df.getCol c' :=
  map_rowGet_setColAux_other df.rows c c' vs h

end DataFrame

/-- Missing-value-propagating addition (float `NaN` semantics). -/
def cellAdd : Cell → Cell → Cell
  | some x, some y => some (x + y)
  | _, _ => none

/-- Missing-value-propagating multiplication. -/
def cellMul : Cell → Cell → Cell
  | some x, some y => some (x * y)
  | _, _ => none

/-- Missing-value-propagating division; division by zero also yields no numeric
value (numpy produces `nan`/`inf` or raises, never a rational). -/
def cellDiv : Cell → Cell → Cell
  | some x, some y => if y = 0 then none else some (x / y)
  | _, _ => none

/-- Sum of a list of cells, `NaN`-propagating. -/
def cellSum (l : List Cell) : Cell :=
  l.foldr cellAdd (some 0)

/-- `np.mean` over a column: sum divided by length (no numeric value on an
empty column, where numpy yields `nan`). -/
def npMean (l : List Cell) : Cell :=
  if l.length = 0 then none else cellDiv (cellSum l) (some (l.length : ℚ))

/-- `np.average(vals, weights=ws)`: `Σ vᵢ·wᵢ / Σ wᵢ` (no numeric value when the
weights sum to zero, where numpy raises `ZeroDivisionError`). -/
def npAverage (vals ws : List Cell) : Cell :=
  cellDiv (cellSum (List.zipWith cellMul vals ws)) (cellSum ws)

/-- Arithmetic mean of a list of rationals. -/
def qMean (l : List ℚ) : ℚ := l.sum / l.length

/-- Weighted average of a list of rationals. -/
def qWeightedAvg (vals ws : List ℚ) : ℚ :=
  (List.zipWith (· * ·) vals ws).sum / ws.sum

theorem cellSum_cons (a : Cell) (l : List Cell) :
    cellSum (a :: l) = cellAdd a (cellSum l) := rfl

theorem cellSum_map_some (l : List ℚ) : cellSum (l.map some) = some l.sum := by
  induction l with
  | nil => simp [cellSum]
  | cons x t ih =>
    rw [List.map_cons, cellSum_cons, ih]
    simp [cellAdd]

theorem cellSum_zipWith_some (vals ws : List ℚ) :
    cellSum (List.zipWith cellMul (vals.map some) (ws.map some))
      = some (List.zipWith (· * ·) vals ws).sum := by
  induction vals generalizing ws with
  | nil => simp [cellSum]
  | cons x t ih =>
    cases ws with
    | nil => simp [cellSum]
    | cons w wt =>
      rw [List.map_cons, List.map_cons, List.zipWith_cons_cons, cellSum_cons,
        ih wt]
      simp [cellMul, cellAdd]

/-- `np.mean` on a fully numeric nonempty column is the arithmetic mean. -/
theorem npMean_map_some (l : List ℚ) (h : l ≠ []) :
    npMean (l.map some) = some (qMean l) := by
  have hlen : l.length ≠ 0 := fun hc => h (List.length_eq_zero.mp hc)
  simp only [npMean, List.length_map, hlen, if_false, cellSum_map_some, cellDiv,
    qMean]
  have : (l.length : ℚ) ≠ 0 := by exact_mod_cast hlen
  simp [this]

/-- `np.average` on fully numeric data with weights of nonzero sum. -/
theorem npAverage_map_some (vals ws : List ℚ) (h : ws.sum ≠ 0) :
    npAverage (vals.map some) (ws.map some) = some (qWeightedAvg vals ws) := by
  rw [npAverage, cellSum_zipWith_some, cellSum_map_some]
  simp [cellDiv, h, qWeightedAvg]

/-!
## `GEstimationSNM._closed_form_solver_` (g_estimation.py lines 193–214)

The propensity-model fit (`propensity_score` from `zepid.causal.ipw.utils`,
followed by `.predict`) is the external regression collaborator (spec §1, §6);
the solver is embedded as a function of the prediction vector that collaborator
returns.  The two patsy design matrices are likewise inputs of the static
method in the source.
-/

/-- Per-row residual `diff = df[treat] - pred_treat` (source line 201). -/
def closedFormDiff (n : ℕ) (a pred : Fin n → ℚ) : Fin n → ℚ :=
  fun i => a i - pred i

/-- `lhm = np.dot(snm_matrix.mul(diff, axis=0).transpose(), snm_matrix)`
(source line 206): row `i` of the SNM design matrix is scaled by `diff i`,
then transposed and matrix-multiplied with the SNM design matrix. -/
def snmLhm {n d : ℕ} (diff : Fin n → ℚ) (S : Matrix (Fin n) (Fin d) ℚ) :
    Matrix (Fin d) (Fin d) ℚ :=
  (Matrix.of fun i j => S i j * diff i).transpose * S

/-- `rha = y_matrix.mul(diff, axis=0).sum()` (source lines 209–210): the column
sums of the diff-scaled outcome design matrix. -/
def snmRha {n d : ℕ} (diff : Fin n → ℚ) (Y : Matrix (Fin n) (Fin d) ℚ) :
    Fin d → ℚ :=
  fun j => ∑ i, diff i * Y i j

/-- `np.linalg.solve(A, b)`: solves the dense linear system, raising
`LinAlgError("Singular matrix")` when the matrix is singular.  The solution is
expressed through the adjugate so that it is computable over `ℚ`. -/
def npLinalgSolve {d : ℕ} (A : Matrix (Fin d) (Fin d) ℚ) (b : Fin d → ℚ) :
    Except PyErr (Fin d → ℚ) :=
  if A.det = 0 then .error (.linAlgError "Singular matrix")
  else .ok ((A.det)⁻¹ • A.adjugate.mulVec b)

/-- The `TypeError` numpy raises when a float array is multiplied by a string
(line 203, weighted path). -/
def seriesTimesStrMsg : String :=
  "ufunc multiply cannot use operands of type float64 and str"

/-- `GEstimationSNM._closed_form_solver_` (source lines 193–214).  `a` is the
observed exposure column, `pred` the propensity model's predicted treatment
probabilities, `S` the SNM design matrix and `Y` the outcome
(renamed-column) design matrix.  `weights` is the `weights` argument the
method receives from `fit`, which is `self._weights`: the configured weights
column NAME (a string), or `None`.  Line 203 `diff = diff * weights`
multiplies the float residual Series by that string, which numpy rejects with
a `TypeError`, so the weighted path never reaches the linear solve. -/
def closedFormSolverPy (n d : ℕ) (a pred : Fin n → ℚ) (weights : Option String)
    (S Y : Matrix (Fin n) (Fin d) ℚ) : Except PyErr (Fin d → ℚ) :=
  match weights with
  | some _ => .error (.typeError seriesTimesStrMsg)
  | none =>
    npLinalgSolve (snmLhm (closedFormDiff n a pred) S)
      (snmRha (closedFormDiff n a pred) Y)

/-- The left-hand matrix built by the solver is `Sᵀ · diag(diff) · S`. -/
theorem snmLhm_eq_diagonal {n d : ℕ} (diff : Fin n → ℚ)
    (S : Matrix (Fin n) (Fin d) ℚ) :
    snmLhm diff S = S.transpose * Matrix.diagonal diff * S := by
  ext j k
  rw [Matrix.mul_assoc]
  simp only [snmLhm, Matrix.mul_apply, Matrix.transpose_apply, Matrix.of_apply,
    Matrix.diagonal_mul]
  refine Finset.sum_congr rfl (fun i _ => ?_)
  rw [Finset.sum_eq_single i]
  · rw [Matrix.diagonal_apply_eq]
    ring
  · intro b _ hb
    rw [Matrix.diagonal_apply_ne _ (Ne.symm hb), zero_mul]
  · exact fun h => absurd (Finset.mem_univ i) h

/-- A successful `np.linalg.solve` returns a genuine solution of the system. -/
theorem npLinalgSolve_correct {d : ℕ} (A : Matrix (Fin d) (Fin d) ℚ)
    (b x : Fin d → ℚ) (h : npLinalgSolve A b = .ok x) : A.mulVec x = b := by
  unfold npLinalgSolve at h
  by_cases hdet : A.det = 0
  · simp [hdet] at h
  · simp only [hdet, if_false, Except.ok.injEq] at h
    subst h
    rw [Matrix.mulVec_smul, Matrix.mulVec_mulVec, Matrix.mul_adjugate,
      Matrix.smul_mulVec_assoc, Matrix.one_mulVec, smul_smul,
      inv_mul_cancel₀ hdet, one_smul]

/-!
## `TimeFixedGFormula` (TimeFixed.py)
-/

/-- The `exposure` constructor argument: a single column name (binary
exposure) or a list of disjoint indicator column names (multivariate
exposure). -/
inductive Exposure where
  | single (c : String)
  | multi (cs : List String)
  deriving Repr, DecidableEq

/-- The `treatment` argument of `fit`: a Python string (the sentinels
`"all"`/`"none"` or a custom boolean expression) or a Python list of custom
expression strings.  The source rejects any other type at lines 130–131, so
the embedding only carries these two. -/
inductive Treatment where
  | str (s : String)
  | list (l : List String)
  deriving Repr, DecidableEq

/-- Python `len(treatment)` (line 142): length of the string, or of the list. -/
def Treatment.planLen : Treatment → ℕ
  | .str s => s.length
  | .list l => l.length

/-- Python `treatment[i]` (line 146): the i-th character as a string, or the
i-th list element. -/
def Treatment.planGet : Treatment → ℕ → String
  | .str s, i => (((s.toList.get? i).map (fun ch => String.mk [ch]))).getD ""
  | .list l, i => l.getD i ""

/-- `np.where(cond, 1, 0)` over a per-row boolean vector. -/
def npWhere01 (bs : List Bool) : List Cell :=
  bs.map (fun b => some (if b then (1 : ℚ) else 0))

/-- Per-row sum of the exposure indicator columns
(`g[self.exposure].sum(axis=1)`; missing cells contribute 0, as pandas row
sums skip `NaN`). -/
def multiRowSum (g : DataFrame) (cs : List String) (k : ℕ) : ℚ :=
  (cs.map (fun c => (g.cellAt c k).getD 0)).sum

/-- `np.sum(np.where(g[self.exposure].sum(axis=1) > 1, 1, 0))` (line 147): the
number of rows in which more than one exposure indicator is set. -/
def overlapRows (g : DataFrame) (cs : List String) : ℕ :=
  ((List.range g.nrows).filter (fun k => decide (1 < multiRowSum g cs k))).length

/-- Warning text of lines 148–150. -/
def overlapWarningMsg : String :=
  "It looks like your specified treatment strategy results in some individuals receiving at least two exposures. Reconsider how the custom treatments are specified"

/-- State of a `TimeFixedGFormula` instance.  `_weights` is the
weights column name or `None`; `outcome_model` is the fitted-model attribute that the `outcome_model`
method assigns over itself (its `predict` operation, supplied by the
external statsmodels collaborator), `none` before any fit. -/
structure TimeFixedGFormula where
  gf : DataFrame
  exposure : Exposure
  outcome : String
  outcome_type : String
  _weights : Option String
  model_fit : Bool
  outcome_model : Option (DataFrame → List ℚ)
  marginal_outcome : Cell
  predicted_df : Option DataFrame

/-- `TimeFixedGFormula.__init__` (lines 10–72): stores a private copy of the
table and validates `outcome_type`. -/
def TimeFixedGFormula.init (df : DataFrame) (exposure : Exposure)
    (outcome : String) (outcome_type : String) (weights : Option String) :
    Except PyErr TimeFixedGFormula :=
  if outcome_type = "binary" ∨ outcome_type = "continuous" then
    .ok { gf := df, exposure := exposure, outcome := outcome,
          outcome_type := outcome_type, _weights := weights,
          model_fit := false, outcome_model := none,
          marginal_outcome := none, predicted_df := none }
  else
    .error (.valueError "Only binary or continuous outcomes are currently supported. Please specify \x22binary\x22 or \x22continuous\x22")

/-- `outcome_model(self, model, print_results)` (lines 74–103).  The GLM/GEE
fitting (logit link for binary outcomes, identity link for continuous; GEE
with per-row weights when a weights column is configured) is delegated to the
external statsmodels collaborator; `fitted` is the `predict` operation of the
fitted model it returns.  The method stores that fitted model and sets
`model_fit = True`. -/
def TimeFixedGFormula.outcomeModel (g : TimeFixedGFormula)
    (fitted : DataFrame → List ℚ) : TimeFixedGFormula :=
  { g with outcome_model := some fitted, model_fit := true }

/-- Lines 145–146: `for i in range(len(self.exposure)):
g[self.exposure[i]] = np.where(eval(treatment[i]), 1, 0)` — each indicator
column is overwritten in turn, each predicate evaluated against the working
table as mutated so far. -/
def multiAssign (g : DataFrame) (cs : List String) (treatment : Treatment)
    (evalE : String → DataFrame → List Bool) : DataFrame :=
  (List.range cs.length).foldl
    (fun acc i =>
      acc.setCol (cs.getD i "") (npWhere01 (evalE (treatment.planGet i) acc)))
    g

/-- Lines 137–160 of `TimeFixedGFormula.fit`: overwrite the exposure
column(s) of the working table `g` according to the treatment plan, returning
the modified table and the warnings issued. -/
def treatmentStep (exposure : Exposure) (g : DataFrame) (treatment : Treatment)
    (evalE : String → DataFrame → List Bool) :
    Except PyErr (DataFrame × List String) :=
  match exposure with
  | .multi cs =>
    if treatment = .str "all" ∨ treatment = .str "none" then
      .error (.valueError "A multivariate exposure has been specified. A custom treatment must be specified by the user")
    else if cs.length ≠ treatment.planLen then
      .error (.valueError "The list of custom treatment conditions must be the same size as the number of treatments")
    else
      let g1 := multiAssign g cs treatment evalE
      -- lines 147–150: warn iff MORE THAN ONE row has overlapping indicators
      let warns := if overlapRows g1 cs > 1 then [overlapWarningMsg] else []
      .ok (g1, warns)
  | .single c =>
    match treatment with
    | .list _ =>
      .error (.valueError "A binary exposure is specified. Treatment plan should be a string object")
    | .str s =>
      if s = "all" then .ok (g.setColConst c (some 1), [])
      else if s = "none" then .ok (g.setColConst c (some 0), [])
      else .ok (g.setCol c (npWhere01 (evalE s g)), [])

/-- Lines 162–169 of `TimeFixedGFormula.fit`: blank the outcome column of
the working table, predict with the fitted outcome model, store the
predictions in the outcome column, and compute the (weighted) marginal
outcome. -/
def fitFinish (g0 : TimeFixedGFormula) (fitted : DataFrame → List ℚ)
    (g1 : DataFrame) (warns : List String) :
    Except PyErr (TimeFixedGFormula × List String) :=
  -- line 163: g[self.outcome] = np.nan
  let g2 := g1.setColConst g0.outcome none
  -- line 164: g[self.outcome] = self.outcome_model.predict(g)
  let preds := fitted g2
  let g3 := g2.setCol g0.outcome (preds.map some)
  -- lines 165–168: marginal outcome
  let marg :=
    match g0._weights with
    | none => npMean (g3.getCol g0.outcome)
    | some wc => npAverage (g3.getCol g0.outcome) (g0.gf.getCol wc)
  .ok ({ g0 with marginal_outcome := marg, predicted_df := some g3 }, warns)

/-- `TimeFixedGFormula.fit(self, treatment)` (lines 105–169).  `evalE` is
Python's `eval` of a boolean expression string against the working table `g`
(an external language facility, spec §6/§9), returning the per-row boolean
vector.  Returns the updated instance together with the list of warnings
issued.  The working copy `g = self.gf.copy()` of line 134 appears here as
`g0.gf` itself; which frame object each write targets is the concern of the
heap model below. -/
def TimeFixedGFormula.fit (g0 : TimeFixedGFormula) (treatment : Treatment)
    (evalE : String → DataFrame → List Bool) :
    Except PyErr (TimeFixedGFormula × List String) :=
  if g0.model_fit = false then
    .error (.valueError "Before the g-formula can be calculated, the outcome model must be specified")
  else
    match treatmentStep g0.exposure g0.gf treatment evalE with
    | .error e => .error e
    | .ok (g1, warns) =>
      match g0.outcome_model with
      | none => .error (.typeError "object is not callable")
      | some fitted => fitFinish g0 fitted g1 warns

/-!
## `GEstimationSNM` (g_estimation.py)
-/

/-- The external collaborators `GEstimationSNM.fit` delegates to (spec §1, §6):
`dmatrix` is `patsy.dmatrix(formula, df, return_type='dataframe')`, returning
the design-matrix column labels and the numeric rows; `propensity` is the
`predict` output of the propensity model fitted by
`propensity_score(df, model, weights, print_results)` (a zEpid helper outside
the two estimator files). -/
structure Externals where
  dmatrix : String → DataFrame → List String × List (List ℚ)
  propensity : DataFrame → String → Option String → List ℚ

/-- View a list of numeric rows as an `n × d` matrix (absent entries are 0). -/
def matOfLists (n d : ℕ) (rows : List (List ℚ)) : Matrix (Fin n) (Fin d) ℚ :=
  Matrix.of fun i j => (rows.getD i []).getD j 0

/-- View a column of cells as a length-`n` vector (absent entries are 0). -/
def vecOfCol (vs : List Cell) (n : ℕ) : Fin n → ℚ :=
  fun i => (vs.getD i none).getD 0

/-- The missing-data warning of `GEstimationSNM.__init__` (lines 70–72). -/
def missingDataWarningMsg (kept total : ℕ) : String :=
  "There is missing data in the dataset. By default, GEstimationSNM will drop all missing data. GEstimationSNM will fit " ++ toString kept ++ " of " ++ toString total ++ " observations"

/-- State of a `GEstimationSNM` instance.  Field names follow the source
attributes (`_treatment_model` and `_snm_` are the stored formula strings,
`none` until the corresponding specification method is called). -/
structure GEstimationSNM where
  df : DataFrame
  treatment : String
  outcome : String
  psi : Option (List ℚ)
  psi_labels : Option (List String)
  _weights : Option String
  _treatment_model : Option String
  _snm_ : Option String
  _print_results : Bool

/-- `GEstimationSNM.__init__` (lines 68–88): warns when rows with missing data
are dropped, stores `df.copy().dropna().reset_index()`, and rejects an
exposure column whose values are not confined to `{0, 1}`
(`value_counts().index.isin([0, 1]).all()`, line 75).  Returns the
construction result together with the warnings issued. -/
def GEstimationSNM.init (df : DataFrame) (exposure outcome : String)
    (weights : Option String) : Except PyErr GEstimationSNM × List String :=
  let warns :=
    if df.dropna.nrows ≠ df.nrows then
      [missingDataWarningMsg df.dropna.nrows df.nrows]
    else []
  let d := df.dropnaResetIndex
  if (d.getCol exposure).all (fun v => v == some 0 || v == some 1) then
    (.ok { df := d, treatment := exposure, outcome := outcome, psi := none,
           psi_labels := none, _weights := weights, _treatment_model := none,
           _snm_ := none, _print_results := true }, warns)
  else
    (.error (.valueError "GEstimationSNM only supports binary exposures currently"), warns)

/-- `treatment_model(self, model, print_results)` (lines 90–106): stores the
treatment-model formula; nothing is fitted yet. -/
def GEstimationSNM.treatmentModel (g : GEstimationSNM) (model : String)
    (print_results : Bool) : GEstimationSNM :=
  { g with _treatment_model := some model, _print_results := print_results }

/-- `structural_nested_model(self, model)` (lines 108–126): stores the SNM
formula. -/
def GEstimationSNM.structuralNestedModel (g : GEstimationSNM) (model : String) :
    GEstimationSNM :=
  { g with _snm_ := some model }

/-- `_grid_search_` (lines 186–191): unconditionally raises
`ValueError("Not implemented yet")`. -/
def GEstimationSNM.gridSearch {α : Type} : Except PyErr α :=
  .error (.valueError "Not implemented yet")

/-- `GEstimationSNM.fit(self, solver, starting_value, alpha_value)`
(lines 128–170).  In the `'closed'` branch, `self._snm_ + ' - 1'` (line 151)
raises a `TypeError` when `structural_nested_model` was never called
(`None + str`), and `self.treatment + ' ~ ' + self._treatment_model`
(line 161) raises a `TypeError` when `treatment_model` was never called
(`str + None`).  On a successful solve, `psi` and `psi_labels` are stored.
(In the source `psi_labels` is assigned at line 152 already, before any
possible solver error; no claim observes that partial write, so the embedding
returns the updated instance only on success.) -/
def GEstimationSNM.fit (g : GEstimationSNM) (ext : Externals) (solver : String)
    (starting_value : Option (List ℚ)) (alpha_value : ℚ) :
    Except PyErr GEstimationSNM :=
  if solver = "closed" then
    match g._snm_ with
    | none => .error (.typeError "unsupported operand types for +: NoneType and str")
    | some snmf =>
      -- line 151: snm = patsy.dmatrix(self._snm_ + ' - 1', self.df)
      let dm := ext.dmatrix (snmf ++ " - 1") g.df
      -- lines 155–157: outcome design matrix over the renamed copy
      let yf := (g.df.dropCol g.treatment).renameCol g.outcome g.treatment
      let ym := ext.dmatrix (snmf ++ " - 1") yf
      match g._treatment_model with
      | none => .error (.typeError "can only concatenate str (not NoneType) to str")
      | some tmf =>
        let model := g.treatment ++ " ~ " ++ tmf
        -- lines 197–199: external propensity fit and prediction
        let pred := ext.propensity g.df model g._weights
        let n := g.df.nrows
        let d := dm.1.length
        match closedFormSolverPy n d
            (vecOfCol (g.df.getCol g.treatment) n)
            (fun i => pred.getD i 0)
            g._weights
            (matOfLists n d dm.2) (matOfLists n d ym.2) with
        | .error e => .error e
        | .ok psiv =>
          .ok { g with psi := some (List.ofFn psiv), psi_labels := some dm.1 }
  else if solver = "search" then
    GEstimationSNM.gridSearch
  else
    .error (.valueError "`solver` must be specified as either 'closed' or as 'search'")

/-!
## Frame aliasing model

Python pandas frames are mutable objects; `.copy()` allocates a fresh one and
in-place column assignment (`g[col] = ...`) writes into an existing one.  To
settle the only-a-private-copy-is-mutated property we model a heap of frame
objects: references are indices, `df.copy()` is an allocation, and each
in-place write names the reference it targets, mirroring the source line by
line.  Consecutive in-place writes to the same reference are collapsed into a
single write of their composition, which does not change which objects are
mutated. -/

/-- A heap of pandas frame objects. -/
abbrev Heap := List DataFrame

/-- Dereference a frame. -/
def heapGet (h : Heap) (r : ℕ) : DataFrame := h.getD r ⟨[]⟩

/-- Allocate a fresh frame object (`df.copy()` and friends), returning the
extended heap and the new reference. -/
def heapAlloc (h : Heap) (df : DataFrame) : Heap × ℕ := (h ++ [df], h.length)

/-- Overwrite the frame object at reference `r` (in-place mutation). -/
def heapWrite (h : Heap) (r : ℕ) (df : DataFrame) : Heap := h.set r df

/-- In-place update of the frame at `r` by a pure frame transformation. -/
def writeAt (h : Heap) (r : ℕ) (f : DataFrame → DataFrame) : Heap :=
  heapWrite h r (f (heapGet h r))

/-- Heap-level state of a `TimeFixedGFormula` instance: `gfRef` is the
reference to the private frame `self.gf`. -/
structure TFRef where
  gfRef : ℕ
  exposure : Exposure
  outcome : String
  model_fit : Bool
  outcome_model : Option (DataFrame → List ℚ)
  predicted_df : Option ℕ

/-- Heap-level `TimeFixedGFormula.__init__`: line 63 `self.gf = df.copy()`
allocates a fresh frame; the caller's frame at `dfRef` is only read. -/
def tfInitH (h : Heap) (dfRef : ℕ) (exposure : Exposure) (outcome : String) :
    Heap × TFRef :=
  let al := heapAlloc h (heapGet h dfRef)
  (al.1, ⟨al.2, exposure, outcome, false, none, none⟩)

/-- Heap-level `outcome_model`: reads `self.gf` and hands it to the external
statsmodels fit, which allocates its own result objects; no frame is
written. -/
def tfOutcomeModelH (h : Heap) (s : TFRef) (fitted : DataFrame → List ℚ) :
    Heap × TFRef :=
  (h, { s with model_fit := true, outcome_model := some fitted })

/-- Heap-level `TimeFixedGFormula.fit`: line 134 `g = self.gf.copy()`
allocates the working frame; every in-place write of lines 146, 156–160,
163–164 targets that fresh frame, and an error raised mid-way leaves the
heap with only the fresh allocation.  `self.predicted_df = g` (line 169)
stores the reference. -/
def tfFitH (h : Heap) (s : TFRef) (treatment : Treatment)
    (evalE : String → DataFrame → List Bool) : Heap × TFRef :=
  if s.model_fit = false then (h, s)
  else
    let al := heapAlloc h (heapGet h s.gfRef)
    let h1 := al.1
    let gRef := al.2
    match treatmentStep s.exposure (heapGet h1 gRef) treatment evalE with
    | .error _ => (h1, s)
    | .ok (g1, _) =>
      let h2 := heapWrite h1 gRef g1
      match s.outcome_model with
      | none => (h2, s)
      | some fitted =>
        let h3 := writeAt h2 gRef (fun g => g.setColConst s.outcome none)
        let h4 := writeAt h3 gRef
          (fun g => g.setCol s.outcome ((fitted g).map some))
        (h4, { s with predicted_df := some gRef })

/-- Heap-level state of a `GEstimationSNM` instance: `dfRef` is the reference
to the private frame `self.df`. -/
structure GERef where
  dfRef : ℕ
  treatment : String
  outcome : String
  _treatment_model : Option String
  _snm_ : Option String

/-- Heap-level `GEstimationSNM.__init__`: line 73
`self.df = df.copy().dropna().reset_index()` allocates fresh frames derived
from the caller's (the intermediate copies are unreachable and never written,
so a single allocation of the final frame is recorded); the caller's frame is
only read.  A non-binary exposure raises after this, which discards the
instance but has the same heap effect. -/
def geInitH (h : Heap) (dfRef : ℕ) (exposure outcome : String) :
    Heap × GERef :=
  let al := heapAlloc h ((heapGet h dfRef).dropnaResetIndex)
  (al.1, ⟨al.2, exposure, outcome, none, none⟩)

/-- Heap-level `treatment_model`: stores a string attribute, no frame
operation. -/
def geTreatmentModelH (h : Heap) (s : GERef) (m : String) : Heap × GERef :=
  (h, { s with _treatment_model := some m })

/-- Heap-level `structural_nested_model`: stores a string attribute, no frame
operation. -/
def geSnmH (h : Heap) (s : GERef) (m : String) : Heap × GERef :=
  (h, { s with _snm_ := some m })

/-- Heap-level `GEstimationSNM.fit`: the `'closed'` branch only reads
`self.df`; lines 155–157 build the fresh derived frame `yf`
(`self.df.copy().drop(...)` then `.rename(...)`, both returning new objects)
and never write into an existing frame.  `psi`/`psi_labels` are instance
attributes, not frames.  The `'search'` and invalid-solver branches raise
before any frame operation. -/
def geFitH (h : Heap) (s : GERef) (solver : String) : Heap × GERef :=
  if solver = "closed" then
    match s._snm_ with
    | none => (h, s)
    | some _ =>
      let al := heapAlloc h
        (((heapGet h s.dfRef).dropCol s.treatment).renameCol s.outcome s.treatment)
      (al.1, s)
  else (h, s)

/-- The operations that can be performed on a `TimeFixedGFormula` instance
after construction. -/
inductive TFOp where
  | model (fitted : DataFrame → List ℚ)
  | fitOp (treatment : Treatment) (evalE : String → DataFrame → List Bool)

/-- The operations that can be performed on a `GEstimationSNM` instance after
construction. -/
inductive GEOp where
  | tmodel (m : String)
  | snm (m : String)
  | fitOp (solver : String)

/-- One step of a `TimeFixedGFormula` session. -/
def tfStep : Heap × TFRef → TFOp → Heap × TFRef
  | (h, s), .model fitted => tfOutcomeModelH h s fitted
  | (h, s), .fitOp t e => tfFitH h s t e

/-- One step of a `GEstimationSNM` session. -/
def geStep : Heap × GERef → GEOp → Heap × GERef
  | (h, s), .tmodel m => geTreatmentModelH h s m
  | (h, s), .snm m => geSnmH h s m
  | (h, s), .fitOp sv => geFitH h s sv

/-- A complete session on one estimator instance: construction from a
caller-owned frame followed by any sequence of operations. -/
inductive Session where
  | tf (dfRef : ℕ) (exposure : Exposure) (outcome : String) (ops : List TFOp)
  | ge (dfRef : ℕ) (exposure outcome : String) (ops : List GEOp)

/-- Run a session against a heap, returning the final heap. -/
def runSession (h : Heap) : Session → Heap
  | .tf dfRef exposure outcome ops =>
    (ops.foldl tfStep (tfInitH h dfRef exposure outcome)).1
  | .ge dfRef exposure outcome ops =>
    (ops.foldl geStep (geInitH h dfRef exposure outcome)).1

/-- `h` extends `h0`: every object that existed in `h0` is unchanged. -/
def HeapExt (h0 h : Heap) : Prop :=
  h0.length ≤ h.length ∧ ∀ i, i < h0.length → h.get? i = h0.get? i

theorem HeapExt.self (h : Heap) : HeapExt h h :=
  ⟨le_refl _, fun _ _ => Eq.refl _⟩

theorem HeapExt.trans {a b c : Heap} (hab : HeapExt a b) (hbc : HeapExt b c) :
    HeapExt a c :=
  ⟨le_trans hab.1 hbc.1,
   fun i hi => (hbc.2 i (lt_of_lt_of_le hi hab.1)).trans (hab.2 i hi)⟩

theorem HeapExt.alloc {h0 h : Heap} (df : DataFrame) (he : HeapExt h0 h) :
    HeapExt h0 (heapAlloc h df).1 := by
  refine ⟨?_, fun i hi => ?_⟩
  · simpa [heapAlloc] using le_trans he.1 (Nat.le_succ _)
  · rw [heapAlloc, List.get?_append (lt_of_lt_of_le hi he.1)]
    exact he.2 i hi

theorem HeapExt.write {h0 h : Heap} (r : ℕ) (df : DataFrame)
    (he : HeapExt h0 h) (hr : h0.length ≤ r) :
    HeapExt h0 (heapWrite h r df) := by
  refine ⟨by simpa [heapWrite] using he.1, fun i hi => ?_⟩
  rw [heapWrite, List.get?_set_ne _ _ (by omega)]
  exact he.2 i hi

theorem HeapExt.writeAt {h0 h : Heap} (r : ℕ) (f : DataFrame → DataFrame)
    (he : HeapExt h0 h) (hr : h0.length ≤ r) :
    HeapExt h0 (ZEpid.writeAt h r f) :=
  he.write r _ hr

theorem tfInitH_ext (h : Heap) (dfRef : ℕ) (exposure : Exposure)
    (outcome : String) : HeapExt h (tfInitH h dfRef exposure outcome).1 :=
  (HeapExt.self h).alloc _

theorem tfFitH_ext (h : Heap) (s : TFRef) (t : Treatment)
    (e : String → DataFrame → List Bool) : HeapExt h (tfFitH h s t e).1 := by
  unfold tfFitH
  by_cases hm : s.model_fit = false
  · simpa [hm] using HeapExt.self h
  · rw [if_neg hm]
    have he1 : HeapExt h (heapAlloc h (heapGet h s.gfRef)).1 :=
      (HeapExt.self h).alloc _
    have hr : h.length ≤ (heapAlloc h (heapGet h s.gfRef)).2 := le_refl _
    dsimp only
    cases hts : treatmentStep s.exposure
        (heapGet (heapAlloc h (heapGet h s.gfRef)).1
          (heapAlloc h (heapGet h s.gfRef)).2) t e with
    | error err => exact he1
    | ok pr =>
      obtain ⟨g1, ws⟩ := pr
      cases ho : s.outcome_model with
      | none => exact he1.write _ _ hr
      | some fitted =>
        dsimp only
        exact ((he1.write _ _ hr).writeAt _ _ hr).writeAt _ _ hr

theorem tfStep_ext (p : Heap × TFRef) (op : TFOp) :
    HeapExt p.1 (tfStep p op).1 := by
  obtain ⟨h, s⟩ := p
  cases op with
  | model fitted => exact HeapExt.self h
  | fitOp t e => exact tfFitH_ext h s t e

theorem geInitH_ext (h : Heap) (dfRef : ℕ) (exposure outcome : String) :
    HeapExt h (geInitH h dfRef exposure outcome).1 :=
  (HeapExt.self h).alloc _

theorem geStep_ext (p : Heap × GERef) (op : GEOp) :
    HeapExt p.1 (geStep p op).1 := by
  obtain ⟨h, s⟩ := p
  cases op with
  | tmodel m => exact HeapExt.self h
  | snm m => exact HeapExt.self h
  | fitOp sv =>
    simp only [geStep, geFitH]
    by_cases hs : sv = "closed"
    · simp only [hs, if_pos rfl]
      cases s._snm_ with
      | none => exact HeapExt.self h
      | some m => exact (HeapExt.self h).alloc _
    · simpa [hs] using HeapExt.self h

theorem foldl_tfStep_ext (ops : List TFOp) (p : Heap × TFRef) :
    HeapExt p.1 (ops.foldl tfStep p).1 := by
  induction ops generalizing p with
  | nil => exact HeapExt.self _
  | cons op t ih => exact (tfStep_ext p op).trans (ih (tfStep p op))

theorem foldl_geStep_ext (ops : List GEOp) (p : Heap × GERef) :
    HeapExt p.1 (ops.foldl geStep p).1 := by
  induction ops generalizing p with
  | nil => exact HeapExt.self _
  | cons op t ih => exact (geStep_ext p op).trans (ih (geStep p op))

/-!
## Concrete sample data used by the witnesses and counterexamples
-/

/-- A two-row observation table with binary exposure `A`, outcome `Y` and a
covariate/weights column `W`. -/
def sampleDF : DataFrame :=
  ⟨[[("A", some 0), ("Y", some 1), ("W", some 2)],
    [("A", some 1), ("Y", some 0), ("W", some 1)]]⟩

/-- A sample fitted outcome model: predicts 1 for every row. -/
def constPredict : DataFrame → List ℚ :=
  fun g => List.replicate g.nrows 1

/-- A sample `eval`: every boolean expression is true on every row. -/
def evalTrue : String → DataFrame → List Bool :=
  fun _ g => List.replicate g.nrows true

/-- Sample external collaborators for `GEstimationSNM.fit`: a one-column
design matrix of 1s and a constant propensity prediction of 1/2. -/
def sampleExternals : Externals :=
  ⟨fun _ df => (["A"], df.rows.map (fun _ => [1])),
   fun df _ _ => List.replicate df.nrows ((1 : ℚ) / 2)⟩

/-- The `GEstimationSNM` instance constructed from `sampleDF` (no model
specified yet). -/
def geSample : GEstimationSNM :=
  { df := sampleDF.dropnaResetIndex, treatment := "A", outcome := "Y",
    psi := none, psi_labels := none, _weights := none,
    _treatment_model := none, _snm_ := none, _print_results := true }

/-- The `TimeFixedGFormula` instance constructed from `sampleDF` (no outcome
model fit yet). -/
def tfFresh : TimeFixedGFormula :=
  { gf := sampleDF, exposure := .single "A", outcome := "Y",
    outcome_type := "binary", _weights := none, model_fit := false,
    outcome_model := none, marginal_outcome := none, predicted_df := none }

/-- `tfFresh` after fitting the sample outcome model. -/
def tfReady : TimeFixedGFormula := tfFresh.outcomeModel constPredict

/-!
## The claims
-/

/-- C9: each estimator holds a private copy of the input table — for every
sequence of operations (construction, model specification, fit) on a
`TimeFixedGFormula` or `GEstimationSNM` instance, every frame object that
existed before the session, in particular the caller's original table, is
unchanged afterwards. -/
theorem runSession_preserves_caller (h : Heap) (s : Session) (i : ℕ)
    (hi : i < h.length) : (runSession h s).get? i = h.get? i := by
  cases s with
  | tf dfRef exposure outcome ops =>
    exact ((tfInitH_ext h dfRef exposure outcome).trans
      (foldl_tfStep_ext ops _)).2 i hi
  | ge dfRef exposure outcome ops =>
    exact ((geInitH_ext h dfRef exposure outcome).trans
      (foldl_geStep_ext ops _)).2 i hi

/-- C9 witness: a concrete session (construct from the caller's frame, fit the
outcome model, run `fit('all')`) leaves the caller's frame unchanged. -/
theorem runSession_preserves_caller_witness :
    (runSession [sampleDF]
        (.tf 0 (.single "A") "Y"
          [.model constPredict, .fitOp (.str "all") evalTrue])).get? 0
      = [sampleDF].get? 0 :=
  runSession_preserves_caller [sampleDF] _ 0 (by decide)

/-- C10: with `solver='closed'`, the result of `GEstimationSNM.fit` — in
particular the stored `psi` and `psi_labels` — does not depend on the
`starting_value` and `alpha_value` arguments: two calls on the same instance
state that differ only in those arguments return identical results. -/
theorem fit_closed_ignores_search_args (g : GEstimationSNM) (ext : Externals)
    (sv sv' : Option (List ℚ)) (av av' : ℚ) :
    g.fit ext "closed" sv av = g.fit ext "closed" sv' av' := rfl

/-- C5: solver dispatch of `GEstimationSNM.fit`: `'search'` always raises the
explicit not-implemented failure `ValueError("Not implemented yet")` (this
code base's equivalent of `NotImplementedError`), and any solver value other
than `'closed'` and `'search'` always raises the configuration
`ValueError`. -/
theorem fit_solver_dispatch :
    (∀ (g : GEstimationSNM) (ext : Externals) (sv : Option (List ℚ)) (av : ℚ),
        g.fit ext "search" sv av = .error (.valueError "Not implemented yet")) ∧
    (∀ (g : GEstimationSNM) (ext : Externals) (sv : Option (List ℚ)) (av : ℚ)
        (s : String), s ≠ "closed" → s ≠ "search" →
        g.fit ext s sv av
          = .error (.valueError "`solver` must be specified as either 'closed' or as 'search'")) := by
  constructor
  · intro g ext sv av
    rfl
  · intro g ext sv av s h1 h2
    simp [GEstimationSNM.fit, h1, h2]

/-- C5 witness: the dispatch at the concrete solver strings `"search"` and
`"grid"` on a concrete instance. -/
theorem fit_solver_dispatch_witness :
    geSample.fit sampleExternals "search" none 0
      = .error (.valueError "Not implemented yet") ∧
    geSample.fit sampleExternals "grid" none 0
      = .error (.valueError "`solver` must be specified as either 'closed' or as 'search'") :=
  ⟨fit_solver_dispatch.1 geSample sampleExternals none 0,
   fit_solver_dispatch.2 geSample sampleExternals none 0 "grid"
     (by decide) (by decide)⟩

/-- C4 (amended): calling `fit` before the required model specification has
been configured fails in both estimators, but only `TimeFixedGFormula.fit`
raises an explicit configuration `ValueError`; `GEstimationSNM.fit` with
`solver='closed'` fails with an implicit `TypeError` from concatenating the
unset (`None`) formula attribute with a string — there is no configuration
check. -/
theorem fit_before_model_spec_fails :
    (∀ (g0 : TimeFixedGFormula) (t : Treatment)
        (evalE : String → DataFrame → List Bool),
        g0.model_fit = false →
        g0.fit t evalE = .error (.valueError "Before the g-formula can be calculated, the outcome model must be specified")) ∧
    (∀ (g : GEstimationSNM) (ext : Externals) (sv : Option (List ℚ)) (av : ℚ),
        g._snm_ = none →
        g.fit ext "closed" sv av
          = .error (.typeError "unsupported operand types for +: NoneType and str")) ∧
    (∀ (g : GEstimationSNM) (ext : Externals) (sv : Option (List ℚ)) (av : ℚ)
        (m : String),
        g._snm_ = some m → g._treatment_model = none →
        g.fit ext "closed" sv av
          = .error (.typeError "can only concatenate str (not NoneType) to str")) := by
  refine ⟨?_, ?_, ?_⟩
  · intro g0 t evalE h
    simp [TimeFixedGFormula.fit, h]
  · intro g ext sv av h
    simp [GEstimationSNM.fit, h]
  · intro g ext sv av m h1 h2
    simp [GEstimationSNM.fit, h1, h2]

/-- C4 witness: the three failure modes on concrete unconfigured
instances. -/
theorem fit_before_model_spec_fails_witness :
    tfFresh.fit (.str "all") evalTrue
      = .error (.valueError "Before the g-formula can be calculated, the outcome model must be specified") ∧
    geSample.fit sampleExternals "closed" none 0
      = .error (.typeError "unsupported operand types for +: NoneType and str") ∧
    (geSample.structuralNestedModel "A").fit sampleExternals "closed" none 0
      = .error (.typeError "can only concatenate str (not NoneType) to str") :=
  ⟨fit_before_model_spec_fails.1 tfFresh (.str "all") evalTrue rfl,
   fit_before_model_spec_fails.2.1 geSample sampleExternals none 0 rfl,
   fit_before_model_spec_fails.2.2 (geSample.structuralNestedModel "A")
     sampleExternals none 0 "A" rfl rfl⟩

/-- C4 counterexample: on a freshly constructed `GEstimationSNM` (reachable
from `GEstimationSNM.__init__`, no models configured), `fit(solver='closed')`
fails with a `TypeError` — not with a configuration error (`ValueError`) as
the claim states. -/
theorem fit_unconfigured_not_valueerror :
    (GEstimationSNM.init sampleDF "A" "Y" none).1 = .ok geSample ∧
    geSample.fit sampleExternals "closed" none 0
      = .error (.typeError "unsupported operand types for +: NoneType and str") ∧
    PyErr.isValueError
        (.typeError "unsupported operand types for +: NoneType and str")
      = false :=
  ⟨rfl, rfl, rfl⟩

/-- C6 counterexample: a table whose exposure column is all zeros — its set
of distinct values is `{0}`, not `{0, 1}` — is nevertheless accepted by the
`GEstimationSNM` constructor. -/
def c6DF : DataFrame :=
  ⟨[[("A", some 0), ("Y", some 1)], [("A", some 0), ("Y", some 0)]]⟩

/-- A table whose exposure column contains the value 2. -/
def c6BadDF : DataFrame := ⟨[[("A", some 2), ("Y", some 1)]]⟩

/-- C6 counterexample: the all-zero exposure column of `c6DF` (distinct value
set `{0}`, which differs from `{0, 1}`) does not make construction fail. -/
theorem init_allzero_exposure_accepted :
    (c6DF.dropnaResetIndex).getCol "A" = [some 0, some 0] ∧
    ∃ g, (GEstimationSNM.init c6DF "A" "Y" none).1 = .ok g :=
  ⟨rfl, ⟨_, rfl⟩⟩

/-- C6 (amended): `GEstimationSNM` construction fails with the configuration
`ValueError` iff some value of the exposure column (after missing-value rows
are dropped) lies outside `{0, 1}` — the code checks
`value_counts().index.isin([0, 1]).all()`, a subset test, so distinct value
sets that are proper subsets of `{0, 1}` are accepted. -/
theorem init_binary_subset_check (df : DataFrame) (exposure outcome : String)
    (w : Option String) :
    ((∀ v ∈ (df.dropnaResetIndex).getCol exposure, v = some 0 ∨ v = some 1) →
      ∃ g, (GEstimationSNM.init df exposure outcome w).1 = .ok g) ∧
    ((∃ v ∈ (df.dropnaResetIndex).getCol exposure, v ≠ some 0 ∧ v ≠ some 1) →
      (GEstimationSNM.init df exposure outcome w).1
        = .error (.valueError "GEstimationSNM only supports binary exposures currently")) := by
  constructor
  · intro h
    unfold GEstimationSNM.init
    dsimp only
    rw [if_pos]
    · exact ⟨_, rfl⟩
    · rw [List.all_eq_true]
      intro v hv
      rcases h v hv with h0 | h1
      · simp [h0]
      · simp [h1]
  · rintro ⟨v, hv, h0, h1⟩
    have hnc : ¬((df.dropnaResetIndex.getCol exposure).all
        (fun v => v == some 0 || v == some 1)) = true := by
      intro hall
      rw [List.all_eq_true] at hall
      have hv01 := hall v hv
      simp only [Bool.or_eq_true, beq_iff_eq] at hv01
      rcases hv01 with h | h
      · exact h0 h
      · exact h1 h
    unfold GEstimationSNM.init
    dsimp only
    rw [if_neg hnc]

/-- C6 witness: acceptance of a genuinely binary column and rejection of a
column containing the value 2. -/
theorem init_binary_subset_check_witness :
    (∃ g, (GEstimationSNM.init c6DF "A" "Y" none).1 = .ok g) ∧
    (GEstimationSNM.init c6BadDF "A" "Y" none).1
      = .error (.valueError "GEstimationSNM only supports binary exposures currently") :=
  ⟨(init_binary_subset_check c6DF "A" "Y" none).1 (by decide),
   (init_binary_subset_check c6BadDF "A" "Y" none).2
     ⟨some 2, by decide, by decide, by decide⟩⟩

/-- A one-row table with two exposure indicator columns. -/
def multiDF : DataFrame :=
  ⟨[[("X1", some 0), ("X2", some 0), ("Y", some 1)]]⟩

/-- A multivariate-exposure `TimeFixedGFormula` instance with a fitted
outcome model. -/
def tfMulti : TimeFixedGFormula :=
  { gf := multiDF, exposure := .multi ["X1", "X2"], outcome := "Y",
    outcome_type := "binary", _weights := none, model_fit := true,
    outcome_model := some constPredict, marginal_outcome := none,
    predicted_df := none }

/-- C7: with a multivariate exposure (a list of indicator columns), `fit`
rejects the sentinel plans `'all'` and `'none'` with a configuration
`ValueError`, and rejects a list of predicates whose length differs from the
exposure list's length with a configuration `ValueError`. -/
theorem fit_multivariate_guard (g0 : TimeFixedGFormula) (cs : List String)
    (evalE : String → DataFrame → List Bool)
    (hexp : g0.exposure = .multi cs) (hfit : g0.model_fit = true) :
    (g0.fit (.str "all") evalE
      = .error (.valueError "A multivariate exposure has been specified. A custom treatment must be specified by the user")) ∧
    (g0.fit (.str "none") evalE
      = .error (.valueError "A multivariate exposure has been specified. A custom treatment must be specified by the user")) ∧
    (∀ l : List String, cs.length ≠ l.length →
      g0.fit (.list l) evalE
        = .error (.valueError "The list of custom treatment conditions must be the same size as the number of treatments")) := by
  refine ⟨?_, ?_, ?_⟩
  · simp [TimeFixedGFormula.fit, hfit, hexp, treatmentStep]
  · simp [TimeFixedGFormula.fit, hfit, hexp, treatmentStep]
  · intro l hne
    simp [TimeFixedGFormula.fit, hfit, hexp, treatmentStep, Treatment.planLen,
      hne]

/-- C7 witness: the three rejections on a concrete two-indicator instance. -/
theorem fit_multivariate_guard_witness :
    tfMulti.fit (.str "all") evalTrue
      = .error (.valueError "A multivariate exposure has been specified. A custom treatment must be specified by the user") ∧
    tfMulti.fit (.str "none") evalTrue
      = .error (.valueError "A multivariate exposure has been specified. A custom treatment must be specified by the user") ∧
    tfMulti.fit (.list ["p1"]) evalTrue
      = .error (.valueError "The list of custom treatment conditions must be the same size as the number of treatments") :=
  ⟨(fit_multivariate_guard tfMulti ["X1", "X2"] evalTrue rfl rfl).1,
   (fit_multivariate_guard tfMulti ["X1", "X2"] evalTrue rfl rfl).2.1,
   (fit_multivariate_guard tfMulti ["X1", "X2"] evalTrue rfl rfl).2.2 ["p1"]
     (by decide)⟩

/-- `multiAssign` only rewrites columns, so the row count is unchanged. -/
theorem multiAssign_nrows (g : DataFrame) (cs : List String) (t : Treatment)
    (e : String → DataFrame → List Bool) :
    (multiAssign g cs t e).nrows = g.nrows := by
  unfold multiAssign
  generalize List.range cs.length = l
  induction l generalizing g with
  | nil => rfl
  | cons i it ih => rw [List.foldl_cons, ih, DataFrame.nrows_setCol]

/-- A successful treatment step only rewrites columns of the working table:
the row count is unchanged. -/
theorem treatmentStep_ok_nrows (exposure : Exposure) (g : DataFrame)
    (t : Treatment) (e : String → DataFrame → List Bool) (g1 : DataFrame)
    (w : List String) (h : treatmentStep exposure g t e = .ok (g1, w)) :
    g1.nrows = g.nrows := by
  cases exposure with
  | multi cs =>
    simp only [treatmentStep] at h
    split at h
    · exact absurd h (by simp)
    · split at h
      · exact absurd h (by simp)
      · simp only [Except.ok.injEq, Prod.mk.injEq] at h
        rw [← h.1]
        exact multiAssign_nrows g cs t e
  | single c =>
    cases t with
    | list l => exact absurd h (by simp [treatmentStep])
    | str s =>
      simp only [treatmentStep] at h
      split at h
      · simp only [Except.ok.injEq, Prod.mk.injEq] at h
        rw [← h.1]
        simp
      · split at h
        · simp only [Except.ok.injEq, Prod.mk.injEq] at h
          rw [← h.1]
          simp
        · simp only [Except.ok.injEq, Prod.mk.injEq] at h
          rw [← h.1]
          simp

/-- C2: with a scalar (binary) exposure column `c` distinct from the outcome
column and a fitted outcome model, `fit('all')` sets the exposure column of
the stored working table to 1 in every row, `fit('none')` sets it to 0 in
every row, and any other string plan sets it to the per-row boolean predicate
evaluated over the working table, cast to {0, 1}
(`np.where(eval(treatment), 1, 0)`). -/
theorem fit_binary_exposure_assignment (g0 : TimeFixedGFormula) (c : String)
    (evalE : String → DataFrame → List Bool) (f : DataFrame → List ℚ)
    (hexp : g0.exposure = .single c) (hfit : g0.model_fit = true)
    (hom : g0.outcome_model = some f) (hco : c ≠ g0.outcome) :
    ((g0.fit (.str "all") evalE).map
        (fun r => (r.1.predicted_df.getD ⟨[]⟩).getCol c)
      = .ok (List.replicate g0.gf.nrows (some 1))) ∧
    ((g0.fit (.str "none") evalE).map
        (fun r => (r.1.predicted_df.getD ⟨[]⟩).getCol c)
      = .ok (List.replicate g0.gf.nrows (some 0))) ∧
    (∀ s : String, s ≠ "all" → s ≠ "none" →
      (evalE s g0.gf).length = g0.gf.nrows →
      (g0.fit (.str s) evalE).map
          (fun r => (r.1.predicted_df.getD ⟨[]⟩).getCol c)
        = .ok (npWhere01 (evalE s g0.gf))) := by
  refine ⟨?_, ?_, ?_⟩
  · simp [TimeFixedGFormula.fit, hfit, hexp, treatmentStep, hom, fitFinish,
      Except.map, DataFrame.getCol_setCol_other _ _ _ _ hco,
      DataFrame.getCol_setColConst_other _ _ _ _ hco]
  · simp [TimeFixedGFormula.fit, hfit, hexp, treatmentStep, hom, fitFinish,
      Except.map, DataFrame.getCol_setCol_other _ _ _ _ hco,
      DataFrame.getCol_setColConst_other _ _ _ _ hco]
  · intro s h1 h2 hlen
    simp [TimeFixedGFormula.fit, hfit, hexp, treatmentStep, hom, fitFinish,
      Except.map, h1, h2, DataFrame.getCol_setCol_other _ _ _ _ hco,
      DataFrame.getCol_setColConst_other _ _ _ _ hco,
      DataFrame.getCol_setCol_self g0.gf c (npWhere01 (evalE s g0.gf))
        (by simp [npWhere01, hlen])]

/-- C2 witness: the three plans on a concrete two-row instance. -/
theorem fit_binary_exposure_assignment_witness :
    ((tfReady.fit (.str "all") evalTrue).map
        (fun r => (r.1.predicted_df.getD ⟨[]⟩).getCol "A")
      = .ok (List.replicate tfReady.gf.nrows (some 1))) ∧
    ((tfReady.fit (.str "none") evalTrue).map
        (fun r => (r.1.predicted_df.getD ⟨[]⟩).getCol "A")
      = .ok (List.replicate tfReady.gf.nrows (some 0))) ∧
    ((tfReady.fit (.str "W > 1") evalTrue).map
        (fun r => (r.1.predicted_df.getD ⟨[]⟩).getCol "A")
      = .ok (npWhere01 (evalTrue "W > 1" tfReady.gf))) :=
  ⟨(fit_binary_exposure_assignment tfReady "A" evalTrue constPredict rfl rfl
      rfl (by decide)).1,
   (fit_binary_exposure_assignment tfReady "A" evalTrue constPredict rfl rfl
      rfl (by decide)).2.1,
   (fit_binary_exposure_assignment tfReady "A" evalTrue constPredict rfl rfl
      rfl (by decide)).2.2 "W > 1" (by decide) (by decide) rfl⟩

/-- C3: after a successful `fit`, the marginal outcome is the mean of the
fitted model's predictions over the modified working table (the exposure-set
table with a blanked outcome column): the unweighted arithmetic mean when no
weights column is configured, and the weighted average with the stored
table's weights column when one is configured. -/
theorem fit_marginal_outcome (g0 : TimeFixedGFormula) (t : Treatment)
    (evalE : String → DataFrame → List Bool) (f : DataFrame → List ℚ)
    (hom : g0.outcome_model = some f)
    (hplen : ∀ df, (f df).length = df.nrows)
    (hnz : g0.gf.nrows ≠ 0)
    (res : TimeFixedGFormula) (warns : List String)
    (h : g0.fit t evalE = .ok (res, warns)) :
    ∃ g2 : DataFrame, g2.nrows = g0.gf.nrows ∧
      res.predicted_df = some (g2.setCol g0.outcome ((f g2).map some)) ∧
      (g0._weights = none → res.marginal_outcome = some (qMean (f g2))) ∧
      (∀ wc ws, g0._weights = some wc →
        g0.gf.getCol wc = List.map some ws → ws.sum ≠ 0 →
        res.marginal_outcome = some (qWeightedAvg (f g2) ws)) := by
  unfold TimeFixedGFormula.fit at h
  by_cases hmf : g0.model_fit = false
  · rw [if_pos hmf] at h
    exact absurd h (by simp)
  · rw [if_neg hmf] at h
    cases hts : treatmentStep g0.exposure g0.gf t evalE with
    | error err =>
      rw [hts] at h
      exact absurd h (by simp)
    | ok pr =>
      obtain ⟨g1, w1⟩ := pr
      rw [hts, hom] at h
      unfold fitFinish at h
      simp only [Except.ok.injEq, Prod.mk.injEq] at h
      obtain ⟨hres, hwarns⟩ := h
      subst hres
      set g2 := g1.setColConst g0.outcome none with hg2
      have hn2 : g2.nrows = g0.gf.nrows := by
        rw [hg2, DataFrame.nrows_setColConst]
        exact treatmentStep_ok_nrows _ _ _ _ _ _ hts
      have hcolY : (g2.setCol g0.outcome ((f g2).map some)).getCol g0.outcome
          = (f g2).map some :=
        DataFrame.getCol_setCol_self _ _ _ (by simp [hplen])
      have hne : f g2 ≠ [] := by
        intro hc
        have := hplen g2
        rw [hc, hn2] at this
        exact hnz this.symm
      refine ⟨g2, hn2, rfl, ?_, ?_⟩
      · intro hw
        simp only [hw]
        rw [hcolY, npMean_map_some _ hne]
      · intro wc ws hw hcol hsum
        simp only [hw]
        rw [hcolY, hcol, npAverage_map_some _ _ hsum]

/-- The working table produced by `tfReady.fit('all')`: exposure set to 1
everywhere, outcome overwritten with the predictions. -/
def c3G3 : DataFrame :=
  ⟨[[("A", some 1), ("Y", some 1), ("W", some 2)],
    [("A", some 1), ("Y", some 1), ("W", some 1)]]⟩

/-- The instance state produced by `tfReady.fit('all')`. -/
def c3Res : TimeFixedGFormula :=
  { tfReady with
    marginal_outcome := npMean (c3G3.getCol "Y")
    predicted_df := some c3G3 }

/-- C3 witness: on the concrete two-row unweighted instance, `fit('all')`
succeeds and its marginal outcome is the arithmetic mean of the
predictions. -/
theorem fit_marginal_outcome_witness :
    tfReady.fit (.str "all") evalTrue = .ok (c3Res, []) ∧
    c3Res.marginal_outcome = some (qMean (constPredict c3G3)) := by
  obtain ⟨g2, hn, hpd, hm, _⟩ :=
    fit_marginal_outcome tfReady (.str "all") evalTrue constPredict rfl
      (fun df => by simp [constPredict]) (by decide) c3Res [] rfl
  refine ⟨rfl, ?_⟩
  rw [hm rfl]
  have h2 : g2.nrows = c3G3.nrows := by
    rw [hn]
    rfl
  simp [constPredict, h2]

/-- C1 (the weighted path is a code bug): the unweighted closed-form path
returns a genuine solution `psi` of the moment system
`(Sᵀ·diag(diff)·S)·psi = rha` with `diff i = aᵢ − predᵢ` and
`rha j = Σᵢ diffᵢ·Yᵢⱼ`; but when a weights column is configured the code
multiplies the float residual Series by the column NAME (a string) instead of
the per-row weight values, so the weighted path always raises a `TypeError`
and never reaches the linear solve. -/
theorem closedFormSolver_spec :
    (∀ (n d : ℕ) (a pred : Fin n → ℚ) (S Y : Matrix (Fin n) (Fin d) ℚ)
        (psi : Fin d → ℚ),
        closedFormSolverPy n d a pred none S Y = .ok psi →
        (S.transpose * Matrix.diagonal (closedFormDiff n a pred) * S).mulVec psi
          = snmRha (closedFormDiff n a pred) Y) ∧
    (∀ (n d : ℕ) (a pred : Fin n → ℚ) (wc : String)
        (S Y : Matrix (Fin n) (Fin d) ℚ),
        closedFormSolverPy n d a pred (some wc) S Y
          = .error (.typeError seriesTimesStrMsg)) := by
  constructor
  · intro n d a pred S Y psi h
    rw [← snmLhm_eq_diagonal]
    exact npLinalgSolve_correct _ _ _ h
  · intro n d a pred wc S Y
    rfl

/-- C1 witness: a concrete one-row, one-parameter unweighted instance
(`a = 1`, `pred = 0`, `S = Y = [[1]]`), whose solver output `psi = [1]`
solves the system. -/
theorem closedFormSolver_spec_witness :
    ((!![(1 : ℚ)]).transpose * Matrix.diagonal (closedFormDiff 1 ![1] ![0])
        * !![(1 : ℚ)]).mulVec ![(1 : ℚ)]
      = snmRha (closedFormDiff 1 ![1] ![0]) !![(1 : ℚ)] := by
  refine closedFormSolver_spec.1 1 1 ![1] ![0] !![1] !![1] ![1] ?_
  have hd : (snmLhm (closedFormDiff 1 ![1] ![0]) !![(1 : ℚ)]).det = 1 := by
    rw [Matrix.det_fin_one]
    simp [snmLhm, closedFormDiff, Matrix.mul_apply]
  show npLinalgSolve _ _ = _
  unfold npLinalgSolve
  rw [hd]
  norm_num
  funext j
  fin_cases j
  simp [Matrix.adjugate_fin_one, Matrix.mulVec, Matrix.dotProduct, snmRha,
    closedFormDiff]

/-- C8 counterexample: a working table with exactly ONE row in which both
exposure indicators end up 1 — `fit` succeeds, stores that table, and issues
NO warning (the code warns only when the count of such rows exceeds 1). -/
theorem fit_overlap_single_row_no_warning :
    (tfMulti.fit (.list ["p1", "p2"]) evalTrue).map
        (fun r => (r.2, (r.1.predicted_df.getD ⟨[]⟩).getCol "X1",
          (r.1.predicted_df.getD ⟨[]⟩).getCol "X2"))
      = .ok ([], [some 1], [some 1]) := by
  have hsum : multiRowSum
      (⟨[[("X1", some 1), ("X2", some 1), ("Y", some 1)]]⟩ : DataFrame)
      ["X1", "X2"] 0 = 2 := by
    unfold multiRowSum DataFrame.cellAt
    norm_num [rowGet]
  have hov : overlapRows
      (⟨[[("X1", some 1), ("X2", some 1), ("Y", some 1)]]⟩ : DataFrame)
      ["X1", "X2"] = 1 := by
    unfold overlapRows
    simp [DataFrame.nrows, List.range_succ, List.filter_cons, hsum]
  have hts : treatmentStep (.multi ["X1", "X2"]) multiDF (.list ["p1", "p2"])
        evalTrue
      = .ok (⟨[[("X1", some 1), ("X2", some 1), ("Y", some 1)]]⟩, []) := by
    have hma : multiAssign multiDF ["X1", "X2"] (.list ["p1", "p2"]) evalTrue
        = ⟨[[("X1", some 1), ("X2", some 1), ("Y", some 1)]]⟩ := rfl
    simp [treatmentStep, Treatment.planLen, hma, hov]
  simp only [TimeFixedGFormula.fit, tfMulti, hts]
  rfl

/-- C8 (amended): in multivariate mode with a length-matching predicate list
and a fitted outcome model, `fit` succeeds (never errors on overlap) and
issues the non-fatal overlap warning iff MORE THAN ONE row of the working
table ends up with more than one exposure indicator set; with exactly one
such row no warning is issued. -/
theorem fit_overlap_warning_threshold (g0 : TimeFixedGFormula)
    (cs l : List String) (evalE : String → DataFrame → List Bool)
    (f : DataFrame → List ℚ)
    (hexp : g0.exposure = .multi cs) (hfit : g0.model_fit = true)
    (hom : g0.outcome_model = some f) (hlen : cs.length = l.length) :
    (g0.fit (.list l) evalE).map (fun r => r.2)
      = .ok (if 1 < overlapRows (multiAssign g0.gf cs (.list l) evalE) cs
          then [overlapWarningMsg] else []) := by
  simp [TimeFixedGFormula.fit, hfit, hexp, treatmentStep, Treatment.planLen,
    hlen, hom, fitFinish, Except.map]

/-- C8 witness: the amended warning rule at the concrete one-row overlap
instance (no warning, since only one row overlaps). -/
theorem fit_overlap_warning_threshold_witness :
    (tfMulti.fit (.list ["p1", "p2"]) evalTrue).map (fun r => r.2)
      = .ok (if 1 < overlapRows
              (multiAssign tfMulti.gf ["X1", "X2"] (.list ["p1", "p2"]) evalTrue)
              ["X1", "X2"]
          then [overlapWarningMsg] else []) :=
  fit_overlap_warning_threshold tfMulti ["X1", "X2"] ["p1", "p2"] evalTrue
    constPredict rfl rfl rfl (by decide)

end ZEpid
